import Mathlib

/-!
Shallow embedding of pkg/ctrl/ctrl.go (package ctrl of midi2tci).

The two event loops (the VFOWheel goroutine and the Slider goroutine) are
embedded as explicit step functions on their loop-local state; each Go
channel is modelled as a FIFO list with the capacity recorded where it
matters; the non-blocking handoff to the executor goroutine (an unbuffered
channel receive) is modelled by a boolean oracle saying whether the executor
is currently ready to receive.
-/

namespace Midi2TCI

/-- client.VFO is an integer-valued enum type in the tci client library;
only its decidable equality matters here. -/
abbrev VFO := Int

/-- MidiKey (ctrl.go lines 10-13): a pair of MIDI channel and key bytes. -/
structure MidiKey where
  channel : Nat
  key : Nat
deriving DecidableEq, Repr

/-- Go expression int(float64(n) * 1.8) from ctrl.go line 162. Go's
float-to-int conversion truncates toward zero. float64(1.8) equals
9/5 + 1/(5 * 2^52); for every |n| far below 2^40 the float64 product
n * float64(1.8) truncates to the same integer as the exact rational
9*n/5 does (the product differs from 9*n/5 by at most about n * 2^-52,
and 9*n/5 is never closer than 1/5 to an integer it does not equal, while
at multiples of 5 the rounded product is exactly the integer 9*n/5), so
the conversion is embedded as truncation toward zero of 9*n/5. -/
def goTimes18 (n : Int) : Int :=
  if 0 ≤ n then ((9 * n.toNat) / 5 : Nat) else -(((9 * (-n).toNat) / 5 : Nat))

/-- Modelled from the spec: the value round(PendingDelta * SENSITIVITY) with
SENSITIVITY = 1.8, reading the spec's round as rounding to the nearest
integer. Declared only to compare the spec's formula with the code's
goTimes18. -/
def specRound18 (n : Int) : Int :=
  round ((n : ℚ) * (9 / 5))

/-- Loop-local state of the VFOWheel goroutine (ctrl.go lines 143-145):
accumulatedTurns, turning, frequency. -/
structure WheelState where
  accumulatedTurns : Int
  turning : Bool
  frequency : Int
deriving DecidableEq, Repr

/-- Initial loop state: accumulatedTurns = 0, turning = false, frequency = 0
(ctrl.go lines 143-145). -/
def WheelState.initial : WheelState := ⟨0, false, 0⟩

/-- Events the VFOWheel loop multiplexes over (ctrl.go lines 147-169): a
received turn delta, a received frequency feedback value, or a ticker tick. -/
inductive WheelEvent where
  | turn (delta : Int)
  | freq (f : Int)
  | tick
deriving DecidableEq, Repr

/-- Delta carried by a turn event; 0 for the other events. -/
def WheelEvent.deltaOf : WheelEvent → Int
  | .turn d => d
  | _ => 0

/-- Whether an event is a frequency feedback event. -/
def WheelEvent.isFreq : WheelEvent → Bool
  | .freq _ => true
  | _ => false

/-- One iteration of the VFOWheel goroutine loop (ctrl.go lines 146-170).
errOutcome is the error result of the SetVFOFrequency call, if one is made
in this iteration (true = the call returned an error); the code only logs
it. Returns the new state, the frequency dispatched downstream via
SetVFOFrequency (if any), and whether an error was logged. -/
def wheelStep (s : WheelState) (e : WheelEvent) (errOutcome : Bool) :
    WheelState × Option Int × Bool :=
  match e with
  | .turn delta =>
      ({ s with accumulatedTurns := s.accumulatedTurns + delta,
                turning := decide (0 < s.frequency) }, none, false)
  | .freq f =>
      (if s.turning then s else { s with frequency := f }, none, false)
  | .tick =>
      if s.accumulatedTurns = 0 then
        ({ s with turning := false }, none, false)
      else if s.accumulatedTurns ≠ 0 ∧ s.frequency ≠ 0 then
        let nf := s.frequency + goTimes18 s.accumulatedTurns
        ({ s with accumulatedTurns := 0, frequency := nf }, some nf, errOutcome)
      else
        (s, none, false)

/-- Run the VFOWheel loop over a list of events, collecting the dispatched
frequencies in order. Call outcomes are irrelevant to state evolution, so
they are fixed to success here. -/
def wheelRun (s : WheelState) (es : List WheelEvent) : WheelState × List Int :=
  match es with
  | [] => (s, [])
  | e :: rest =>
      let (s1, d, _) := wheelStep s e false
      let (s2, out) := wheelRun s1 rest
      (s2, d.toList ++ out)

/-- Loop-local state of the Slider goroutine (ctrl.go lines 252-254):
activeValue, selectedValue, pending. -/
structure SliderState where
  activeValue : Int
  selectedValue : Int
  pending : Bool
deriving DecidableEq, Repr

/-- Initial Slider loop state (ctrl.go lines 252-254). -/
def SliderState.initial : SliderState := ⟨0, 0, false⟩

/-- Events the Slider loop multiplexes over (ctrl.go lines 256-294): a
received active (feedback) value, a received selected (target) value, or a
ticker tick. -/
inductive SliderEvent where
  | active (v : Int)
  | selected (v : Int)
  | tick
deriving DecidableEq, Repr

/-- One iteration of the Slider goroutine loop (ctrl.go lines 256-294).
ready models whether the executor goroutine is currently blocked receiving
on the unbuffered tx channel, i.e. whether the non-blocking send in the
select/default succeeds. Returns the new state and the value handed to the
executor, if any (the executor then invokes the set function with it). -/
def sliderStep (s : SliderState) (e : SliderEvent) (ready : Bool) :
    SliderState × Option Int :=
  match e with
  | .active v =>
      let s1 := { s with activeValue := v }
      (if s1.pending then s1 else { s1 with selectedValue := s1.activeValue }, none)
  | .selected v =>
      let s1 := { s with selectedValue := v }
      if s1.activeValue = s1.selectedValue then (s1, none)
      else if ready then ({ s1 with pending := false }, some s1.selectedValue)
      else ({ s1 with pending := true }, none)
  | .tick =>
      if s.activeValue = s.selectedValue then ({ s with pending := false }, none)
      else if ready then ({ s with pending := false }, some s.selectedValue)
      else ({ s with pending := true }, none)

/-- Run the Slider loop over a list of events, each paired with the
executor-readiness oracle for any handoff attempted while processing it;
collects the values handed to the executor in order. -/
def sliderRun (s : SliderState) (es : List (SliderEvent × Bool)) :
    SliderState × List Int :=
  match es with
  | [] => (s, [])
  | (e, r) :: rest =>
      let (s1, d) := sliderStep s e r
      let (s2, out) := sliderRun s1 rest
      (s2, d.toList ++ out)

/-- Run the Slider loop over target (selected-value) events only: one
ReportTarget burst, each value paired with its readiness oracle. -/
def sliderRunTargets (s : SliderState) (vs : List (Int × Bool)) :
    SliderState × List Int :=
  sliderRun s (vs.map fun p => (SliderEvent.selected p.1, p.2))

/-- System-level state of one VFOWheel instance, as seen by the Close
protocol: the loop-local state, the buffered contents of the turns channel,
and whether the turns channel and the closed channel have been closed. The
closed channel is closed exactly by the deferred close when the loop
goroutine returns, so closedCh = true means the event loop has fully
exited. -/
structure WheelSys where
  loopState : WheelState
  turnsBuf : List Int
  turnsClosed : Bool
  closedCh : Bool
deriving DecidableEq, Repr

/-- VFOWheel.Close (ctrl.go lines 191-199). If result.closed is already
closed, the select hits the first case and Close returns at once without
doing anything. Otherwise it closes the turns channel and blocks on
receiving from closed; the loop goroutine receives the turns still
buffered, then observes the closed turns channel and returns, whereupon its
deferred close of result.closed releases Close. The blocking wait is
modelled by returning the state in which the loop has exited. The Bool
result records whether the call performed the shutdown action (false = it
returned immediately as a no-op). -/
def VFOWheel.Close (s : WheelSys) : WheelSys × Bool :=
  if s.closedCh then (s, false)
  else
    ({ loopState := (wheelRun s.loopState (s.turnsBuf.map WheelEvent.turn)).1,
       turnsBuf := [], turnsClosed := true, closedCh := true }, true)

/-- System-level state of one Slider instance for the Close protocol,
analogous to WheelSys: loop-local state, the buffered contents of the
activeValue and selectedValue channels, and the closed flags. -/
structure SliderSys where
  loopState : SliderState
  activeBuf : List Int
  selectedBuf : List Int
  intakeClosed : Bool
  closedCh : Bool
deriving DecidableEq, Repr

/-- Slider.Close (ctrl.go lines 299-308). Same protocol as VFOWheel.Close:
an already-closed closed channel makes the call an immediate no-op;
otherwise both intake channels are closed and the call blocks until the
loop goroutine returns (which closes s.closed via its defer). The drain of
the remaining buffered events before the loop observes a closed channel is
one resolution of the select nondeterminism (actives first, then selecteds,
no executor handoff); the Close contract does not depend on it. -/
def Slider.Close (s : SliderSys) : SliderSys × Bool :=
  if s.closedCh then (s, false)
  else
    ({ loopState := (sliderRun s.loopState
         ((s.activeBuf.map fun v => (SliderEvent.active v, false)) ++
          (s.selectedBuf.map fun v => (SliderEvent.selected v, false)))).1,
       activeBuf := [], selectedBuf := [], intakeClosed := true,
       closedCh := true }, true)

/-- Target identity of a VFOWheel (ctrl.go lines 176-185): the trx and vfo
it was created for. -/
structure WheelId where
  trx : Int
  vfo : VFO
deriving DecidableEq, Repr

/-- VFOWheel.SetVFOFrequency (ctrl.go lines 205-210): feedback is filtered
by target identity; on a mismatch the method returns at once, on a match it
enqueues the frequency into the frequency channel. The frequency channel is
modelled by its buffered contents. -/
def VFOWheel.SetVFOFrequency (w : WheelId) (freqBuf : List Int)
    (trx : Int) (vfo : VFO) (frequency : Int) : List Int :=
  if trx ≠ w.trx ∨ vfo ≠ w.vfo then freqBuf
  else freqBuf ++ [frequency]

/-- RXChannelEnableButton (ctrl.go lines 61-69): its configuration and its
enabled flag. -/
structure RXChannelEnableButton where
  key : MidiKey
  trx : Int
  vfo : VFO
  enabled : Bool
deriving DecidableEq, Repr

/-- RXChannelEnableButton.SetRXChannelEnable (ctrl.go lines 82-88): on a
target mismatch the method returns at once; on a match it stores the
enabled flag and updates the LED. The LED update is modelled by appending a
(key, on) entry to a log of LED.Set calls. -/
def RXChannelEnableButton.SetRXChannelEnable (b : RXChannelEnableButton)
    (ledLog : List (MidiKey × Bool)) (trx : Int) (vfo : VFO) (enabled : Bool) :
    RXChannelEnableButton × List (MidiKey × Bool) :=
  if trx ≠ b.trx ∨ vfo ≠ b.vfo then (b, ledLog)
  else ({ b with enabled := enabled }, ledLog ++ [(b.key, enabled)])

/-- Capacity of the turns and frequency channels of a VFOWheel (ctrl.go
lines 133-134) and of the activeValue and selectedValue channels of a
Slider (ctrl.go lines 216-217). -/
def intakeCap : Nat := 1000

/-- VFOWheel.Turned (ctrl.go lines 201-203): a plain send on the turns
channel, whose capacity is 1000. A send on a buffered Go channel completes
immediately iff the buffer is not full: some = the call returned without
blocking (with the new buffer contents), none = the caller blocks until the
loop drains an element. -/
def VFOWheel.Turned (turnsBuf : List Int) (turns : Int) : Option (List Int) :=
  if turnsBuf.length < intakeCap then some (turnsBuf ++ [turns]) else none

/-- Slider.Changed (ctrl.go lines 310-312): sends translate(value) on the
selectedValue channel, whose capacity is 1000; same send semantics as
VFOWheel.Turned. -/
def Slider.Changed (translate : Int → Int) (selectedBuf : List Int)
    (value : Int) : Option (List Int) :=
  if selectedBuf.length < intakeCap then
    some (selectedBuf ++ [translate value])
  else none

/-- Translate function of NewVolumeSlider (ctrl.go lines 315-324):
v mapped to -60 + int(float64(v) * tick) with tick = float64(60.0/127.0).
float64(60.0/127.0) equals 60/127 - 15/2287828610704211968; for every v
with |v| ≤ 127 the conversion int(float64(v) * tick) agrees with
truncation toward zero of the exact rational 60*v/127 (in particular
127 * tick rounds to exactly 60.0), so the float computation is embedded
as that truncation. -/
def volumeTranslate (v : Int) : Int :=
  -60 + (if 0 ≤ v then (((60 * v.toNat) / 127 : Nat) : Int)
         else -(((60 * (-v).toNat) / 127 : Nat) : Int))

theorem specRound18_two : specRound18 2 = 4 := by
  rw [specRound18, round_eq]
  norm_num

/-- C2: the claim computes the dispatched value as
BaselineValue + round(PendingDelta * 1.8). At PendingDelta = 2 and
BaselineValue = 100 the code dispatches 100 + int(float64(2) * 1.8) = 103,
while 100 + round(2 * 1.8) = 104: Go's float-to-int conversion truncates
toward zero, it does not round. -/
theorem C2_counterexample :
    (wheelStep ⟨2, true, 100⟩ .tick false).2.1 = some 103 ∧
    (100 : Int) + specRound18 2 = 104 ∧ (103 : Int) ≠ 104 := by
  refine ⟨by decide, ?_, by decide⟩
  rw [specRound18_two]
  norm_num

/-- C2 (amended): on a clock tick with accumulatedTurns nonzero and
frequency nonzero, the dispatched value equals
frequency + trunc(accumulatedTurns * 1.8) (truncation toward zero, Go's
int conversion), frequency is set to that new value, and accumulatedTurns
is reset to 0 regardless of whether the SetVFOFrequency call succeeds or
fails (err appears in the result only as the logged flag); a burst
[+3, +2, -1] in one tick window accumulates to +4 and dispatches
BaselineValue + trunc(4 * 1.8) = BaselineValue + 7 (equal to round(7.2)
here, so the claim's concrete example is unaffected). -/
theorem C2_tick_dispatch (s : WheelState) (err : Bool) (B : Int) (b : Bool)
    (hacc : s.accumulatedTurns ≠ 0) (hfreq : s.frequency ≠ 0) (hB : B ≠ 0) :
    wheelStep s .tick err =
      ({ s with accumulatedTurns := 0,
                frequency := s.frequency + goTimes18 s.accumulatedTurns },
       some (s.frequency + goTimes18 s.accumulatedTurns), err) ∧
    (wheelRun ⟨0, b, B⟩ [.turn 3, .turn 2, .turn (-1), .tick]).2 =
      [B + goTimes18 4] ∧
    goTimes18 4 = 7 := by
  refine ⟨?_, ?_, by decide⟩
  · simp [wheelStep, hacc, hfreq]
  · norm_num [wheelRun, wheelStep, hB]

theorem C2_tick_dispatch_witness :
    wheelStep ⟨2, true, 100⟩ .tick true = (⟨0, true, 103⟩, some 103, true) ∧
    (wheelRun ⟨0, false, 7⟩ [.turn 3, .turn 2, .turn (-1), .tick]).2 = [14] ∧
    goTimes18 4 = 7 := by
  simpa using C2_tick_dispatch ⟨2, true, 100⟩ true 7 false
    (by decide) (by decide) (by decide)

/-- C4: the claim says a turn delta sets the turning flag to true exactly
when frequency is nonzero. The code sets turning = frequency > 0: after a
baseline report of -5 (accepted while idle) and one turn, frequency is
-5 ≠ 0 yet turning is false. -/
theorem C4_counterexample :
    (wheelRun WheelState.initial [.freq (-5), .turn 1]).1.turning = false ∧
    (wheelRun WheelState.initial [.freq (-5), .turn 1]).1.frequency ≠ 0 := by
  decide

/-- C4 (amended): processing a turn delta adds the delta to
accumulatedTurns, sets turning to true exactly when frequency is positive
(and to false otherwise, including for a negative frequency), leaves
frequency unchanged and dispatches nothing. -/
theorem C4_turn_step (s : WheelState) (d : Int) (err : Bool) :
    (wheelStep s (.turn d) err).1.accumulatedTurns = s.accumulatedTurns + d ∧
    ((wheelStep s (.turn d) err).1.turning = true ↔ 0 < s.frequency) ∧
    (wheelStep s (.turn d) err).1.frequency = s.frequency ∧
    (wheelStep s (.turn d) err).2.1 = none := by
  simp [wheelStep]

/-- C5: processing a frequency feedback value overwrites frequency with the
reported value when turning is false, and leaves the entire state
(accumulatedTurns, turning, frequency) unchanged when turning is true; in
both cases nothing is dispatched. -/
theorem C5_freq_step (s : WheelState) (f : Int) (err : Bool) :
    (s.turning = true → wheelStep s (.freq f) err = (s, none, false)) ∧
    (s.turning = false →
      wheelStep s (.freq f) err = ({ s with frequency := f }, none, false)) := by
  constructor <;> intro h <;> simp [wheelStep, h]

theorem C5_freq_step_witness :
    wheelStep ⟨1, true, 5⟩ (.freq 9) false = (⟨1, true, 5⟩, none, false) ∧
    wheelStep ⟨1, false, 5⟩ (.freq 9) false = (⟨1, false, 9⟩, none, false) :=
  ⟨(C5_freq_step ⟨1, true, 5⟩ 9 false).1 rfl,
   (C5_freq_step ⟨1, false, 5⟩ 9 false).2 rfl⟩

theorem wheelRun_no_freq (es : List WheelEvent) :
    ∀ s : WheelState, s.frequency = 0 → (∀ e ∈ es, e.isFreq = false) →
      (wheelRun s es).2 = [] ∧ (wheelRun s es).1.frequency = 0 ∧
      (wheelRun s es).1.accumulatedTurns =
        s.accumulatedTurns + (es.map WheelEvent.deltaOf).sum := by
  induction es with
  | nil =>
      intro s hs _
      exact ⟨rfl, hs, by simp [wheelRun]⟩
  | cons e rest ih =>
      intro s hs h
      have hr : ∀ x ∈ rest, x.isFreq = false :=
        fun x hx => h x (List.mem_cons_of_mem e hx)
      cases e with
      | turn d =>
          have h1 := ih { s with accumulatedTurns := s.accumulatedTurns + d,
                                 turning := decide (0 < s.frequency) } hs hr
          simp only [wheelRun, wheelStep, Option.toList_none, List.nil_append,
            List.map_cons, List.sum_cons, WheelEvent.deltaOf] at h1 ⊢
          exact ⟨h1.1, h1.2.1, by rw [h1.2.2]; ring⟩
      | freq f =>
          have hf := h (.freq f) (List.mem_cons_self _ _)
          simp [WheelEvent.isFreq] at hf
      | tick =>
          by_cases hacc : s.accumulatedTurns = 0
          · have h1 := ih { s with turning := false } hs hr
            simp only [wheelRun, wheelStep, hacc, if_pos, Option.toList_none,
              List.nil_append, List.map_cons, List.sum_cons,
              WheelEvent.deltaOf] at h1 ⊢
            exact ⟨h1.1, h1.2.1, by rw [h1.2.2]; ring⟩
          · have h1 := ih s hs hr
            simp only [wheelRun, wheelStep, hacc, hs, if_neg, if_false,
              ne_eq, not_true_eq_false, and_false, Option.toList_none,
              List.nil_append, List.map_cons, List.sum_cons,
              WheelEvent.deltaOf, ite_false] at h1 ⊢
            exact ⟨h1.1, h1.2.1, by rw [h1.2.2]; ring⟩

/-- C6: starting from the initial state, for every event sequence that
contains only turn deltas and ticks (no frequency feedback), no
SetVFOFrequency call is ever dispatched and accumulatedTurns ends up equal
to the sum of all the deltas. -/
theorem C6_no_baseline_no_dispatch (es : List WheelEvent)
    (h : ∀ e ∈ es, e.isFreq = false) :
    (wheelRun WheelState.initial es).2 = [] ∧
    (wheelRun WheelState.initial es).1.accumulatedTurns =
      (es.map WheelEvent.deltaOf).sum := by
  have h1 := wheelRun_no_freq es WheelState.initial rfl h
  exact ⟨h1.1, by simpa [WheelState.initial] using h1.2.2⟩

theorem C6_no_baseline_no_dispatch_witness :
    (wheelRun WheelState.initial [.turn 3, .tick, .turn 2]).2 = [] ∧
    (wheelRun WheelState.initial [.turn 3, .tick, .turn 2]).1.accumulatedTurns =
      ([WheelEvent.turn 3, WheelEvent.tick, WheelEvent.turn 2].map
        WheelEvent.deltaOf).sum :=
  C6_no_baseline_no_dispatch _ (by decide)

theorem sliderStep_selected_sel (s : SliderState) (v : Int) (r : Bool) :
    (sliderStep s (.selected v) r).1.selectedValue = v := by
  simp only [sliderStep]
  split
  · rfl
  · split <;> rfl

theorem sliderStep_selected_dispatch (s : SliderState) (v : Int) (r : Bool) :
    (sliderStep s (.selected v) r).2 = none ∨
    (sliderStep s (.selected v) r).2 = some v := by
  simp only [sliderStep]
  split
  · exact Or.inl rfl
  · split
    · exact Or.inr rfl
    · exact Or.inl rfl

theorem getLast?_getD_cons (v x : Int) (l : List Int) :
    ((v :: l).getLast?).getD x = (l.getLast?).getD v := by
  cases l with
  | nil => rfl
  | cons a l' =>
      rw [List.getLast?_cons_cons]
      cases h : (a :: l').getLast? with
      | none => simp [List.getLast?_eq_none_iff] at h
      | some w => rfl

theorem sliderRunTargets_props (vs : List (Int × Bool)) :
    ∀ s : SliderState,
      (sliderRunTargets s vs).2.length ≤ vs.length ∧
      (sliderRunTargets s vs).2.Sublist (vs.map Prod.fst) ∧
      (sliderRunTargets s vs).1.selectedValue =
        ((vs.map Prod.fst).getLast?).getD s.selectedValue := by
  induction vs with
  | nil => intro s; simp [sliderRunTargets, sliderRun]
  | cons p rest ih =>
      intro s
      obtain ⟨v, r⟩ := p
      have key : sliderRunTargets s ((v, r) :: rest) =
          ((sliderRunTargets (sliderStep s (.selected v) r).1 rest).1,
           (sliderStep s (.selected v) r).2.toList ++
             (sliderRunTargets (sliderStep s (.selected v) r).1 rest).2) := by
        simp [sliderRunTargets, sliderRun]
      obtain ⟨ih1, ih2, ih3⟩ := ih (sliderStep s (.selected v) r).1
      rw [key]
      refine ⟨?_, ?_, ?_⟩
      · calc ((sliderStep s (.selected v) r).2.toList ++
              (sliderRunTargets (sliderStep s (.selected v) r).1 rest).2).length
            = (sliderStep s (.selected v) r).2.toList.length +
              (sliderRunTargets (sliderStep s (.selected v) r).1 rest).2.length := by
              simp
          _ ≤ 1 + rest.length := by
              have hd : (sliderStep s (.selected v) r).2.toList.length ≤ 1 := by
                cases (sliderStep s (.selected v) r).2 <;> simp
              omega
          _ = ((v, r) :: rest).length := by simp [Nat.add_comm]
      · rcases sliderStep_selected_dispatch s v r with hd | hd
        · rw [hd]
          simp only [Option.toList_none, List.nil_append, List.map_cons]
          exact ih2.cons v
        · rw [hd]
          simp only [Option.toList_some, List.cons_append, List.nil_append,
            List.map_cons]
          exact ih2.cons₂ v
      · rw [ih3, sliderStep_selected_sel]
        simp only [List.map_cons]
        exact (getLast?_getD_cons v s.selectedValue (rest.map Prod.fst)).symm

/-- C1: the claim says each burst of target reports within one tick window
causes exactly one downstream call carrying the last value. The code also
attempts an immediate non-blocking handoff on every target report: with the
executor ready both times, the burst [5, 9] inside a single tick window
hands off two values (5 and then 9), i.e. two downstream calls, not one. -/
theorem C1_counterexample :
    (sliderRun SliderState.initial
      [(.selected 5, true), (.selected 9, true)]).2 = [5, 9] ∧
    ([5, 9] : List Int).length ≠ 1 := by decide

/-- C1 (amended): in a burst of ReportTarget calls within one tick window,
each call makes at most one downstream handoff and every handed-off value
is one of the submitted values, in submission order (the dispatches form a
sublist of the burst); after the burst selectedValue equals the last value
submitted, and the next tick with the executor ready hands off exactly that
last value, unless the active value already equals it (nothing to do). -/
theorem C1_burst_coalesce (s : SliderState) (vs : List (Int × Bool)) (w : Int)
    (hw : (vs.map Prod.fst).getLast? = some w) :
    (sliderRunTargets s vs).2.length ≤ vs.length ∧
    (sliderRunTargets s vs).2.Sublist (vs.map Prod.fst) ∧
    (sliderRunTargets s vs).1.selectedValue = w ∧
    (sliderStep (sliderRunTargets s vs).1 .tick true).2 =
      (if (sliderRunTargets s vs).1.activeValue = w then none else some w) := by
  obtain ⟨h1, h2, h3⟩ := sliderRunTargets_props vs s
  have hsel : (sliderRunTargets s vs).1.selectedValue = w := by
    rw [h3, hw]; rfl
  refine ⟨h1, h2, hsel, ?_⟩
  by_cases hav : (sliderRunTargets s vs).1.activeValue = w
  · simp [sliderStep, hav, hsel]
  · simp [sliderStep, hav, hsel]

theorem C1_burst_coalesce_witness :
    (sliderRunTargets SliderState.initial [(5, true), (9, false)]).2.length ≤
      ([((5 : Int), true), (9, false)]).length ∧
    (sliderRunTargets SliderState.initial [(5, true), (9, false)]).2.Sublist
      (([((5 : Int), true), (9, false)]).map Prod.fst) ∧
    (sliderRunTargets SliderState.initial
      [(5, true), (9, false)]).1.selectedValue = 9 ∧
    (sliderStep (sliderRunTargets SliderState.initial
        [(5, true), (9, false)]).1 .tick true).2 =
      (if (sliderRunTargets SliderState.initial
            [(5, true), (9, false)]).1.activeValue = 9
       then none else some 9) :=
  C1_burst_coalesce SliderState.initial [(5, true), (9, false)] 9 (by decide)

/-- C3: the claim allows an active report to overwrite selectedValue only
when the pending flag is false AND no target has been set yet. The code
checks only the pending flag: after a target report of 5 whose immediate
handoff succeeded (pending stays false), an active report of 7 still
overwrites selectedValue with 7, although a target had been set. -/
theorem C3_counterexample :
    (sliderRun SliderState.initial
      [(.selected 5, true), (.active 7, true)]).1 =
      { activeValue := 7, selectedValue := 7, pending := false } ∧
    (7 : Int) ≠ 5 := by decide

/-- C3 (amended): processing an active report sets activeValue to the
reported value and overwrites selectedValue with it if and only if the
pending flag is false, regardless of whether a target has been set before;
the pending flag is unchanged and nothing is handed to the executor. -/
theorem C3_active_step (s : SliderState) (v : Int) (r : Bool) :
    (sliderStep s (.active v) r).1.activeValue = v ∧
    (sliderStep s (.active v) r).1.selectedValue =
      (if s.pending then s.selectedValue else v) ∧
    (sliderStep s (.active v) r).1.pending = s.pending ∧
    (sliderStep s (.active v) r).2 = none := by
  cases hp : s.pending <;> simp [sliderStep, hp]

/-- C7: for both VFOWheel.Close and Slider.Close, every call returns only
after the event loop goroutine has exited (the closed channel, which is
closed exactly by the loop's deferred close on exit, is closed in the
state in which Close returns, so no event is processed afterwards), and a
second Close called after a first Close has returned performs no action
and changes nothing. -/
theorem C7_close_idempotent (w : WheelSys) (sl : SliderSys) :
    ((VFOWheel.Close w).1.closedCh = true ∧
     VFOWheel.Close (VFOWheel.Close w).1 = ((VFOWheel.Close w).1, false)) ∧
    ((Slider.Close sl).1.closedCh = true ∧
     Slider.Close (Slider.Close sl).1 = ((Slider.Close sl).1, false)) := by
  constructor
  · by_cases h : w.closedCh <;> simp [VFOWheel.Close, h]
  · by_cases h : sl.closedCh <;> simp [Slider.Close, h]

/-- C8: feedback calls with a non-matching target identity do nothing:
VFOWheel.SetVFOFrequency with non-matching trx or vfo enqueues nothing
into the frequency channel, and RXChannelEnableButton.SetRXChannelEnable
with non-matching trx or vfo leaves the button state unchanged and
performs no LED update. -/
theorem C8_identity_filter (w : WheelId) (buf : List Int)
    (b : RXChannelEnableButton) (led : List (MidiKey × Bool))
    (trxW : Int) (vfoW : VFO) (f : Int)
    (trxB : Int) (vfoB : VFO) (en : Bool)
    (hw : trxW ≠ w.trx ∨ vfoW ≠ w.vfo) (hb : trxB ≠ b.trx ∨ vfoB ≠ b.vfo) :
    VFOWheel.SetVFOFrequency w buf trxW vfoW f = buf ∧
    RXChannelEnableButton.SetRXChannelEnable b led trxB vfoB en = (b, led) := by
  constructor
  · simp only [VFOWheel.SetVFOFrequency]
    rw [if_pos hw]
  · simp only [RXChannelEnableButton.SetRXChannelEnable]
    rw [if_pos hb]

theorem C8_identity_filter_witness :
    VFOWheel.SetVFOFrequency ⟨0, 1⟩ [] 1 1 7000 = [] ∧
    RXChannelEnableButton.SetRXChannelEnable ⟨⟨0, 1⟩, 0, 1, false⟩ [] 0 2 true =
      (⟨⟨0, 1⟩, 0, 1, false⟩, []) :=
  C8_identity_filter ⟨0, 1⟩ [] ⟨⟨0, 1⟩, 0, 1, false⟩ [] 1 1 7000 0 2 true
    (Or.inl (by decide)) (Or.inr (by decide))

/-- C9: the claim says Turned and Changed return without blocking
regardless of how many earlier events are still unprocessed. The intake
channels have capacity 1000: with 1000 unprocessed events buffered, a
further send blocks the caller until the loop drains an element. -/
theorem C9_counterexample :
    VFOWheel.Turned (List.replicate 1000 0) 1 = none ∧
    Slider.Changed (fun v => v) (List.replicate 1000 0) 1 = none := by
  have hlen : (List.replicate 1000 (0 : Int)).length = 1000 :=
    List.length_replicate _ _
  constructor
  · simp only [VFOWheel.Turned, hlen, intakeCap]
    rw [if_neg (by norm_num)]
  · simp only [Slider.Changed, hlen, intakeCap]
    rw [if_neg (by norm_num)]

/-- C9 (amended): VFOWheel.Turned and Slider.Changed return without
blocking whenever fewer than 1000 earlier events are still unprocessed in
the respective intake channel (1000 being its capacity), appending the
event in submission order (Changed after applying translate). -/
theorem C9_nonblocking (tbuf sbuf : List Int) (t v : Int) (tr : Int → Int)
    (h1 : tbuf.length < intakeCap) (h2 : sbuf.length < intakeCap) :
    VFOWheel.Turned tbuf t = some (tbuf ++ [t]) ∧
    Slider.Changed tr sbuf v = some (sbuf ++ [tr v]) := by
  constructor
  · simp only [VFOWheel.Turned]
    rw [if_pos h1]
  · simp only [Slider.Changed]
    rw [if_pos h2]

theorem C9_nonblocking_witness :
    VFOWheel.Turned [] 3 = some ([] ++ [3]) ∧
    Slider.Changed (fun v => v) [] 5 = some ([] ++ [(fun v => v) 5]) :=
  C9_nonblocking [] [] 3 5 (fun v => v) (by decide) (by decide)

/-- C10: for every MIDI input v with 0 ≤ v ≤ 127, the VolumeSlider's
translated value -60 + int(v * 60/127) lies in the range [-60, 0], is
monotone non-decreasing in v, and maps v = 0 to -60 and v = 127 to 0. -/
theorem C10_volume_translate :
    (∀ v : Int, 0 ≤ v → v ≤ 127 →
      -60 ≤ volumeTranslate v ∧ volumeTranslate v ≤ 0) ∧
    (∀ v w : Int, 0 ≤ v → v ≤ w → w ≤ 127 →
      volumeTranslate v ≤ volumeTranslate w) ∧
    volumeTranslate 0 = -60 ∧ volumeTranslate 127 = 0 := by
  refine ⟨?_, ?_, by decide, by decide⟩
  · intro v h0 h127
    simp only [volumeTranslate]
    rw [if_pos h0]
    have hv : v.toNat ≤ 127 := by omega
    have hle : (60 * v.toNat) / 127 ≤ 60 := by
      calc (60 * v.toNat) / 127 ≤ (60 * 127) / 127 :=
            Nat.div_le_div_right (Nat.mul_le_mul_left _ hv)
        _ = 60 := by norm_num
    omega
  · intro v w h0 hvw h127
    have h0w : (0 : Int) ≤ w := le_trans h0 hvw
    simp only [volumeTranslate]
    rw [if_pos h0, if_pos h0w]
    have hmono : (60 * v.toNat) / 127 ≤ (60 * w.toNat) / 127 :=
      Nat.div_le_div_right (Nat.mul_le_mul_left _ (Int.toNat_le_toNat hvw))
    omega

theorem C10_volume_translate_witness :
    (-60 ≤ volumeTranslate 64 ∧ volumeTranslate 64 ≤ 0) ∧
    volumeTranslate 64 ≤ volumeTranslate 100 :=
  ⟨C10_volume_translate.1 64 (by decide) (by decide),
   C10_volume_translate.2.1 64 100 (by decide) (by decide) (by decide)⟩

end Midi2TCI

